import Mathlib

/-!
Verification of `generate_data.py`: a sensor-data generator producing rows of
simulated temperature / pressure / vibration readings with a timestamp and a
normal/abnormal label, optionally blanked fields, serialized to CSV.

Modelling choices:
* The global `random` module is a stream `g : ℕ → ℚ` of draws together with a
  cursor; `random.random()` reads `g k` and advances the cursor to `k + 1`.
  A well-formed stream has every draw in `[0, 1)` (`validStream`).
* `random.uniform(a, b)` is `a + (b - a) * random.random()` (CPython).
* Real numbers are rationals; Python `round(x, n)` is round-half-to-even of
  the scaled value (its documented semantics), in exact arithmetic.
* A row dict becomes the `Row` structure; a missing value (Python `''`) is
  `none`. The row carries the underlying instant as seconds since the Unix
  epoch; `strftime` is applied at serialization time.
* A `pd.DataFrame` of rows becomes `List Row`; a failed dict lookup
  (Python `KeyError`) makes a function return `none`.
-/

/-- Round a rational to the nearest integer, ties to even (Python `round`). -/
def rndHalfEven (x : ℚ) : ℤ :=
  let f := ⌊x⌋
  if x - f < 1/2 then f
  else if 1/2 < x - f then f + 1
  else if f % 2 = 0 then f else f + 1

/-- Python `round(x, n)` for natural `n`: half-to-even at `n` decimal places. -/
def pyRound (x : ℚ) (n : ℕ) : ℚ := (rndHalfEven (x * 10 ^ n) : ℚ) / 10 ^ n

/-- CPython `random.uniform(a, b) = a + (b - a) * random.random()`. -/
def randomUniform (a b u : ℚ) : ℚ := a + (b - a) * u

/-- A draw stream for the global `random` module: every draw lies in `[0, 1)`. -/
def validStream (g : ℕ → ℚ) : Prop := ∀ m, 0 ≤ g m ∧ g m < 1

/-- Per-sensor static parameters (one entry of `self.sensor_params`). -/
structure SensorParams where
  normal_range : ℚ × ℚ
  abnormal_high : ℚ × ℚ
  abnormal_low : ℚ × ℚ
  unit : String
  deriving DecidableEq, Repr

/-- One generated record. Python stores the `strftime`-formatted timestamp in
the row dict; here the row carries the instant (seconds since the Unix epoch)
and formatting happens at serialization. Missing sensor values are `none`. -/
structure Row where
  timestamp : ℤ
  label : String
  temp : Option ℚ
  pressure : Option ℚ
  vibration : Option ℚ
  deriving DecidableEq, Repr

/-- The generator object: its two instance attributes, set in `__init__` and
read by the methods. -/
structure SensorDataGenerator where
  sensor_params : String → Option SensorParams
  start_time : ℤ

/-- Days since 1970-01-01 of a Gregorian date (civil-calendar algorithm,
valid for dates from 1970 on, which is the only regime we use). -/
def daysFromCivil (y m d : ℕ) : ℕ :=
  let y' := if m ≤ 2 then y - 1 else y
  let era := y' / 400
  let yoe := y' - era * 400
  let mp := if 2 < m then m - 3 else m + 9
  let doy := (153 * mp + 2) / 5 + d - 1
  let doe := yoe * 365 + yoe / 4 - yoe / 100 + doy
  era * 146097 + doe - 719468

/-- A `datetime(y, m, d, h, mi, s)` value as seconds since the Unix epoch. -/
def datetimeSec (y m d h mi s : ℕ) : ℤ :=
  ((daysFromCivil y m d * 86400 + h * 3600 + mi * 60 + s : ℕ) : ℤ)

/-- `SensorDataGenerator.__init__`: the sensor-parameter dict and the start
timestamp `datetime(2024, 6, 3, 19, 0, 0)`. -/
def SensorDataGenerator.init : SensorDataGenerator :=
  ⟨fun name =>
    if name = "temp" then
      some ⟨(45, 50), (52, 60), (35, 43), "°C"⟩
    else if name = "pressure" then
      some ⟨(1, 105/100), (108/100, 115/100), (90/100, 97/100), ""⟩
    else if name = "vibration" then
      some ⟨(2/100, 4/100), (7/100, 12/100), (1/1000, 15/1000), ""⟩
    else none,
   datetimeSec 2024 6 3 19 0 0⟩

/-- `SensorDataGenerator.generate_sensor_value`. The RNG cursor `k` is passed
and returned explicitly; an unknown sensor name (Python `KeyError`) gives
`none`. -/
def SensorDataGenerator.generate_sensor_value (self : SensorDataGenerator) (g : ℕ → ℚ)
    (k : ℕ) (sensor_name : String) (is_normal_label : Bool)
    (normal_prob abnormal_prob : ℚ) : Option (ℚ × ℕ) :=
  match self.sensor_params sensor_name with
  | none => none
  | some params =>
    let prob_in_normal := if is_normal_label then normal_prob else abnormal_prob
    let rk : (ℚ × ℚ) × ℕ :=
      if g k < prob_in_normal then (params.normal_range, k + 1)
      else if g (k + 1) < 1/2 then (params.abnormal_high, k + 2)
      else (params.abnormal_low, k + 2)
    let value := randomUniform rk.1.1 rk.1.2 (g rk.2)
    let value' :=
      if sensor_name = "temp" then pyRound value 1
      else if sensor_name = "pressure" then pyRound value 2
      else if sensor_name = "vibration" then pyRound value 3
      else value
    some (value', rk.2 + 1)

/-- One iteration of the per-sensor loop body in `generate_row`: decide
missingness, else sample a value. -/
def SensorDataGenerator.genField (self : SensorDataGenerator) (g : ℕ → ℚ) (k : ℕ)
    (sensor_name : String) (is_normal_label : Bool)
    (normal_prob abnormal_prob null_prob : ℚ) : Option (Option ℚ × ℕ) :=
  if g k < null_prob then some (none, k + 1)
  else
    match self.generate_sensor_value g (k + 1) sensor_name is_normal_label
        normal_prob abnormal_prob with
    | none => none
    | some (v, k') => some (some v, k')

/-- `SensorDataGenerator.generate_row`: timestamp, label draw, then the three
sensor fields in dict order `temp`, `pressure`, `vibration`. -/
def SensorDataGenerator.generate_row (self : SensorDataGenerator) (g : ℕ → ℚ) (k : ℕ)
    (row_num : ℤ) (normal_prob abnormal_prob null_prob : ℚ) : Option (Row × ℕ) :=
  let timestamp := self.start_time + 60 * row_num
  let is_normal_label : Bool := decide (g k < 7/10)
  let label := if is_normal_label then "normal" else "abnormal"
  match self.genField g (k + 1) "temp" is_normal_label normal_prob abnormal_prob
      null_prob with
  | none => none
  | some (t, k1) =>
    match self.genField g k1 "pressure" is_normal_label normal_prob abnormal_prob
        null_prob with
    | none => none
    | some (p, k2) =>
      match self.genField g k2 "vibration" is_normal_label normal_prob abnormal_prob
          null_prob with
      | none => none
      | some (vb, k3) => some (⟨timestamp, label, t, p, vb⟩, k3)

/-- The integers `[s, s + 1, ..., s + cnt - 1]`. -/
def idxFrom (s : ℕ) : ℕ → List ℤ
  | 0 => []
  | cnt + 1 => ((s : ℤ)) :: idxFrom (s + 1) cnt

/-- Python `range(n)` for an `int` argument: `[0, ..., n - 1]`, empty for
`n ≤ 0`. -/
def pyRange (n : ℤ) : List ℤ := idxFrom 0 n.toNat

/-- The `for i in range(num_rows)` accumulation loop of `generate_dataset`. -/
def SensorDataGenerator.genDataLoop (self : SensorDataGenerator) (g : ℕ → ℚ) (k : ℕ)
    (idxs : List ℤ) (normal_prob abnormal_prob null_prob : ℚ) :
    Option (List Row × ℕ) :=
  match idxs with
  | [] => some ([], k)
  | i :: rest =>
    match self.generate_row g k i normal_prob abnormal_prob null_prob with
    | none => none
    | some (r, k') =>
      match self.genDataLoop g k' rest normal_prob abnormal_prob null_prob with
      | none => none
      | some (rs, k'') => some (r :: rs, k'')

/-- `SensorDataGenerator.generate_dataset`. The second component is the
generator object after the call (the method never assigns to `self`). The
final RNG cursor is global hidden state and is discarded, as in Python. -/
def SensorDataGenerator.generate_dataset (self : SensorDataGenerator) (g : ℕ → ℚ)
    (k : ℕ) (num_rows : ℤ) (normal_prob abnormal_prob null_prob : ℚ) :
    Option (List Row) × SensorDataGenerator :=
  ((self.genDataLoop g k (pyRange num_rows) normal_prob abnormal_prob
      null_prob).map Prod.fst, self)

/-- RNG cursor just before row `i` when dataset generation starts at cursor
`k` (a stating device for row-order claims; the `0` fallback is unreachable
because `generate_row` never fails on the initial generator). -/
def posAfterRow (g : ℕ → ℚ) (np ap nullp : ℚ) (k : ℕ) : ℕ → ℕ
  | 0 => k
  | i + 1 =>
    match SensorDataGenerator.init.generate_row g (posAfterRow g np ap nullp k i)
        (i : ℤ) np ap nullp with
    | some (_, k') => k'
    | none => 0

/-- The summary produced by `print_statistics` (the console report's data:
counts, echoed parameters, missing-value statistics, head/tail previews).
Percentages use Lean's `q / 0 = 0` convention when the dataset is empty. -/
structure Stats where
  total : ℕ
  label_counts : List (String × ℕ)
  normal_prob : ℚ
  abnormal_prob : ℚ
  null_prob : ℚ
  null_counts : List (String × ℕ)
  null_percentages : List (String × ℚ)
  head10 : List Row
  tail10 : List Row
  deriving DecidableEq, Repr

/-- `SensorDataGenerator.print_statistics`: computes the report data from the
dataset. The second component is the post-call state: the generator object
and the dataset, which the method only reads. -/
def SensorDataGenerator.print_statistics (self : SensorDataGenerator) (df : List Row)
    (normal_prob abnormal_prob null_prob : ℚ) :
    Stats × (SensorDataGenerator × List Row) :=
  let total := df.length
  let normalCount := df.countP (fun r => r.label == "normal")
  let abnormalCount := df.countP (fun r => r.label == "abnormal")
  let tempNull := df.countP (fun r => r.temp == none)
  let pressureNull := df.countP (fun r => r.pressure == none)
  let vibrationNull := df.countP (fun r => r.vibration == none)
  (⟨total,
    [("normal", normalCount), ("abnormal", abnormalCount)],
    normal_prob, abnormal_prob, null_prob,
    [("temp", tempNull), ("pressure", pressureNull), ("vibration", vibrationNull)],
    [("temp", (tempNull : ℚ) / total * 100),
     ("pressure", (pressureNull : ℚ) / total * 100),
     ("vibration", (vibrationNull : ℚ) / total * 100)],
    df.take 10, df.drop (df.length - 10)⟩,
   (self, df))

/-- Gregorian date of a day count since the Unix epoch (inverse civil-calendar
algorithm; valid for days `≥ 0`, the only regime used). -/
def civilFromDays (z0 : ℕ) : ℕ × ℕ × ℕ :=
  let z := z0 + 719468
  let era := z / 146097
  let doe := z % 146097
  let yoe := (doe - doe / 1460 + doe / 36524 - doe / 146096) / 365
  let y := yoe + era * 400
  let doy := doe - (365 * yoe + yoe / 4 - yoe / 100)
  let mp := (5 * doy + 2) / 153
  let d := doy - (153 * mp + 2) / 5 + 1
  let m := if mp < 10 then mp + 3 else mp - 9
  (if m ≤ 2 then y + 1 else y, m, d)

/-- Zero-pad a number to two digits. -/
def pad2 (n : ℕ) : String := if n < 10 then "0" ++ toString n else toString n

/-- Zero-pad a number to four digits (years in our range need no padding). -/
def pad4 (n : ℕ) : String :=
  if n < 10 then "000" ++ toString n
  else if n < 100 then "00" ++ toString n
  else if n < 1000 then "0" ++ toString n
  else toString n

/-- `strftime('%Y-%m-%d %H:%M:%S')` of an instant in seconds since the epoch. -/
def fmtTimestamp (t : ℤ) : String :=
  let s := t.toNat
  let ymd := civilFromDays (s / 86400)
  let rem := s % 86400
  pad4 ymd.1 ++ "-" ++ pad2 ymd.2.1 ++ "-" ++ pad2 ymd.2.2 ++ " " ++
    pad2 (rem / 3600) ++ ":" ++ pad2 (rem % 3600 / 60) ++ ":" ++ pad2 (rem % 60)

/-- Modelled from the spec: the numeric rendering pandas uses for a CSV cell
is not part of this repository; the spec constrains only that a missing value
serializes as an empty field, so a present value renders via `toString` and a
missing one as the empty string. -/
def cellStr : Option ℚ → String
  | none => ""
  | some v => toString v

/-- The CSV field separator. -/
def comma : String := ","

/-- Default used when indexing into a row's field list in statements (never
actually reached: a row always has five fields). -/
def defaultCell : String := "X"

/-- The five CSV cells of one row, in column order. -/
def rowFields (r : Row) : List String :=
  [fmtTimestamp r.timestamp, r.label, cellStr r.temp, cellStr r.pressure,
   cellStr r.vibration]

/-- One serialized CSV data line. -/
def rowToCsvLine (r : Row) : String := String.intercalate comma (rowFields r)

/-- Modelled from the spec: `df.to_csv(output, index=False)` writes a header
line `timestamp,label,temp,pressure,vibration` followed by one line per row,
comma-separated, missing values as empty fields (pandas itself is external
library code). The file contents are modelled as the list of lines. -/
def to_csv (df : List Row) : List String :=
  "timestamp,label,temp,pressure,vibration" :: df.map rowToCsvLine

/-- A concrete draw stream: every draw is `0`. -/
def g0 : ℕ → ℚ := fun _ => 0

/-- A concrete draw stream: every draw is `7/10` (label draws come out
`abnormal` since `7/10 < 7/10` is false). -/
def g1 : ℕ → ℚ := fun _ => 7/10

lemma le_rndHalfEven (y : ℚ) (z : ℤ) (h : (z : ℚ) ≤ y) : z ≤ rndHalfEven y := by
  have hz : z ≤ ⌊y⌋ := Int.le_floor.mpr h
  simp only [rndHalfEven]
  split_ifs <;> omega

lemma rndHalfEven_le (y : ℚ) (z : ℤ) (h : y ≤ (z : ℚ)) : rndHalfEven y ≤ z := by
  have hfl : ⌊y⌋ ≤ z := by
    have := Int.floor_le_floor h
    rwa [Int.floor_intCast] at this
  have hfl' : ((⌊y⌋ : ℤ) : ℚ) ≤ (z : ℚ) := by exact_mod_cast hfl
  simp only [rndHalfEven]
  split_ifs with h1 h2 h3
  · exact hfl
  · rcases lt_or_eq_of_le hfl with h' | h'
    · omega
    · exfalso
      have hzq : ((⌊y⌋ : ℤ) : ℚ) = (z : ℚ) := by exact_mod_cast h'
      have : y - (⌊y⌋ : ℚ) ≤ 0 := by linarith
      linarith
  · exact hfl
  · rcases lt_or_eq_of_le hfl with h' | h'
    · omega
    · exfalso
      have hzq : ((⌊y⌋ : ℤ) : ℚ) = (z : ℚ) := by exact_mod_cast h'
      have hfrac : y - (⌊y⌋ : ℚ) = 1/2 := le_antisymm (not_lt.mp h2) (not_lt.mp h1)
      have : y - (⌊y⌋ : ℚ) ≤ 0 := by linarith
      linarith

lemma pyRound_in_Icc (n : ℕ) (za zb : ℤ) (x : ℚ)
    (h1 : (za : ℚ) ≤ x * 10 ^ n) (h2 : x * 10 ^ n ≤ (zb : ℚ)) :
    (za : ℚ) / 10 ^ n ≤ pyRound x n ∧ pyRound x n ≤ (zb : ℚ) / 10 ^ n := by
  have hp : (0 : ℚ) < 10 ^ n := by positivity
  have hz1 : za ≤ rndHalfEven (x * 10 ^ n) := le_rndHalfEven _ _ h1
  have hz2 : rndHalfEven (x * 10 ^ n) ≤ zb := rndHalfEven_le _ _ h2
  unfold pyRound
  constructor
  · gcongr
  · gcongr

lemma randomUniform_mem (a b u : ℚ) (hab : a ≤ b) (h0 : 0 ≤ u) (h1 : u < 1) :
    a ≤ randomUniform a b u ∧ randomUniform a b u ≤ b := by
  unfold randomUniform
  constructor
  · nlinarith
  · nlinarith

lemma pyRound_uniform_mem (n : ℕ) (za zb : ℤ) (a b u : ℚ)
    (ha : a * 10 ^ n = (za : ℚ)) (hb : b * 10 ^ n = (zb : ℚ)) (hab : a ≤ b)
    (h0 : 0 ≤ u) (h1 : u < 1) :
    a ≤ pyRound (randomUniform a b u) n ∧ pyRound (randomUniform a b u) n ≤ b := by
  have hp : (0 : ℚ) < 10 ^ n := by positivity
  obtain ⟨hxl, hxr⟩ := randomUniform_mem a b u hab h0 h1
  have h1' : (za : ℚ) ≤ randomUniform a b u * 10 ^ n := by
    rw [← ha]
    exact mul_le_mul_of_nonneg_right hxl hp.le
  have h2' : randomUniform a b u * 10 ^ n ≤ (zb : ℚ) := by
    rw [← hb]
    exact mul_le_mul_of_nonneg_right hxr hp.le
  obtain ⟨hl, hr⟩ := pyRound_in_Icc n za zb _ h1' h2'
  constructor
  · calc a = a * 10 ^ n / 10 ^ n := by field_simp
      _ = (za : ℚ) / 10 ^ n := by rw [ha]
      _ ≤ _ := hl
  · calc pyRound (randomUniform a b u) n ≤ (zb : ℚ) / 10 ^ n := hr
      _ = zb / 10 ^ n := rfl
      _ = b := by rw [← hb]; field_simp

lemma pyRound_eq_div (x : ℚ) (n : ℕ) : ∃ z : ℤ, pyRound x n = (z : ℚ) / 10 ^ n :=
  ⟨rndHalfEven (x * 10 ^ n), rfl⟩

lemma gsv_temp_eq (g : ℕ → ℚ) (k : ℕ) (isn : Bool) (np ap : ℚ) :
    SensorDataGenerator.init.generate_sensor_value g k "temp" isn np ap =
      (if g k < (if isn then np else ap) then
        some (pyRound (randomUniform 45 50 (g (k + 1))) 1, k + 2)
      else if g (k + 1) < 1/2 then
        some (pyRound (randomUniform 52 60 (g (k + 2))) 1, k + 3)
      else
        some (pyRound (randomUniform 35 43 (g (k + 2))) 1, k + 3)) := by
  have h1 : SensorDataGenerator.init.sensor_params "temp" =
      some ⟨(45, 50), (52, 60), (35, 43), "°C"⟩ := rfl
  unfold SensorDataGenerator.generate_sensor_value
  simp only [h1]
  split_ifs with hc hc2 <;> rfl

lemma gsv_pressure_eq (g : ℕ → ℚ) (k : ℕ) (isn : Bool) (np ap : ℚ) :
    SensorDataGenerator.init.generate_sensor_value g k "pressure" isn np ap =
      (if g k < (if isn then np else ap) then
        some (pyRound (randomUniform 1 (105/100) (g (k + 1))) 2, k + 2)
      else if g (k + 1) < 1/2 then
        some (pyRound (randomUniform (108/100) (115/100) (g (k + 2))) 2, k + 3)
      else
        some (pyRound (randomUniform (90/100) (97/100) (g (k + 2))) 2, k + 3)) := by
  have h1 : SensorDataGenerator.init.sensor_params "pressure" =
      some ⟨(1, 105/100), (108/100, 115/100), (90/100, 97/100), ""⟩ := rfl
  unfold SensorDataGenerator.generate_sensor_value
  simp only [h1]
  simp only [eq_false (show ¬("pressure" : String) = "temp" by decide),
    eq_true (show ("pressure" : String) = "pressure" from rfl), if_false, if_true]
  split_ifs with hc hc2 <;> rfl

lemma gsv_vibration_eq (g : ℕ → ℚ) (k : ℕ) (isn : Bool) (np ap : ℚ) :
    SensorDataGenerator.init.generate_sensor_value g k "vibration" isn np ap =
      (if g k < (if isn then np else ap) then
        some (pyRound (randomUniform (2/100) (4/100) (g (k + 1))) 3, k + 2)
      else if g (k + 1) < 1/2 then
        some (pyRound (randomUniform (7/100) (12/100) (g (k + 2))) 3, k + 3)
      else
        some (pyRound (randomUniform (1/1000) (15/1000) (g (k + 2))) 3, k + 3)) := by
  have h1 : SensorDataGenerator.init.sensor_params "vibration" =
      some ⟨(2/100, 4/100), (7/100, 12/100), (1/1000, 15/1000), ""⟩ := rfl
  unfold SensorDataGenerator.generate_sensor_value
  simp only [h1]
  simp only [eq_false (show ¬("vibration" : String) = "temp" by decide),
    eq_false (show ¬("vibration" : String) = "pressure" by decide),
    eq_true (show ("vibration" : String) = "vibration" from rfl), if_false, if_true]
  split_ifs with hc hc2 <;> rfl

lemma gsv_temp_total (g : ℕ → ℚ) (k : ℕ) (isn : Bool) (np ap : ℚ) :
    ∃ v k', SensorDataGenerator.init.generate_sensor_value g k "temp" isn np ap =
      some (v, k') := by
  rw [gsv_temp_eq]
  split_ifs <;> exact ⟨_, _, rfl⟩

lemma gsv_pressure_total (g : ℕ → ℚ) (k : ℕ) (isn : Bool) (np ap : ℚ) :
    ∃ v k', SensorDataGenerator.init.generate_sensor_value g k "pressure" isn np ap =
      some (v, k') := by
  rw [gsv_pressure_eq]
  split_ifs <;> exact ⟨_, _, rfl⟩

lemma gsv_vibration_total (g : ℕ → ℚ) (k : ℕ) (isn : Bool) (np ap : ℚ) :
    ∃ v k', SensorDataGenerator.init.generate_sensor_value g k "vibration" isn np ap =
      some (v, k') := by
  rw [gsv_vibration_eq]
  split_ifs <;> exact ⟨_, _, rfl⟩

lemma gsv_temp_normal (g : ℕ → ℚ) (hg : validStream g) (k : ℕ) (ap v : ℚ) (k' : ℕ)
    (h : SensorDataGenerator.init.generate_sensor_value g k "temp" true 1 ap =
      some (v, k')) : 45 ≤ v ∧ v ≤ 50 := by
  rw [gsv_temp_eq] at h
  have hlt : g k < (if (true : Bool) = true then (1 : ℚ) else ap) := by
    simpa using (hg k).2
  rw [if_pos hlt] at h
  simp only [Option.some.injEq, Prod.mk.injEq] at h
  obtain ⟨hv, -⟩ := h
  subst hv
  exact pyRound_uniform_mem 1 450 500 45 50 (g (k + 1)) (by norm_num) (by norm_num)
    (by norm_num) (hg (k + 1)).1 (hg (k + 1)).2

lemma gsv_pressure_normal (g : ℕ → ℚ) (hg : validStream g) (k : ℕ) (ap v : ℚ) (k' : ℕ)
    (h : SensorDataGenerator.init.generate_sensor_value g k "pressure" true 1 ap =
      some (v, k')) : 1 ≤ v ∧ v ≤ 105/100 := by
  rw [gsv_pressure_eq] at h
  have hlt : g k < (if (true : Bool) = true then (1 : ℚ) else ap) := by
    simpa using (hg k).2
  rw [if_pos hlt] at h
  simp only [Option.some.injEq, Prod.mk.injEq] at h
  obtain ⟨hv, -⟩ := h
  subst hv
  exact pyRound_uniform_mem 2 100 105 1 (105/100) (g (k + 1)) (by norm_num) (by norm_num)
    (by norm_num) (hg (k + 1)).1 (hg (k + 1)).2

lemma gsv_vibration_normal (g : ℕ → ℚ) (hg : validStream g) (k : ℕ) (ap v : ℚ) (k' : ℕ)
    (h : SensorDataGenerator.init.generate_sensor_value g k "vibration" true 1 ap =
      some (v, k')) : 2/100 ≤ v ∧ v ≤ 4/100 := by
  rw [gsv_vibration_eq] at h
  have hlt : g k < (if (true : Bool) = true then (1 : ℚ) else ap) := by
    simpa using (hg k).2
  rw [if_pos hlt] at h
  simp only [Option.some.injEq, Prod.mk.injEq] at h
  obtain ⟨hv, -⟩ := h
  subst hv
  exact pyRound_uniform_mem 3 20 40 (2/100) (4/100) (g (k + 1)) (by norm_num)
    (by norm_num) (by norm_num) (hg (k + 1)).1 (hg (k + 1)).2

lemma gsv_temp_abnormal (g : ℕ → ℚ) (hg : validStream g) (k : ℕ) (np v : ℚ) (k' : ℕ)
    (h : SensorDataGenerator.init.generate_sensor_value g k "temp" false np 0 =
      some (v, k')) : (52 ≤ v ∧ v ≤ 60) ∨ (35 ≤ v ∧ v ≤ 43) := by
  rw [gsv_temp_eq] at h
  have hnlt : ¬ g k < (if (false : Bool) = true then np else (0 : ℚ)) := by
    simpa using not_lt.mpr (hg k).1
  rw [if_neg hnlt] at h
  by_cases hc : g (k + 1) < 1/2
  · rw [if_pos hc] at h
    simp only [Option.some.injEq, Prod.mk.injEq] at h
    obtain ⟨hv, -⟩ := h
    subst hv
    exact Or.inl (pyRound_uniform_mem 1 520 600 52 60 (g (k + 2)) (by norm_num)
      (by norm_num) (by norm_num) (hg (k + 2)).1 (hg (k + 2)).2)
  · rw [if_neg hc] at h
    simp only [Option.some.injEq, Prod.mk.injEq] at h
    obtain ⟨hv, -⟩ := h
    subst hv
    exact Or.inr (pyRound_uniform_mem 1 350 430 35 43 (g (k + 2)) (by norm_num)
      (by norm_num) (by norm_num) (hg (k + 2)).1 (hg (k + 2)).2)

lemma gsv_pressure_abnormal (g : ℕ → ℚ) (hg : validStream g) (k : ℕ) (np v : ℚ) (k' : ℕ)
    (h : SensorDataGenerator.init.generate_sensor_value g k "pressure" false np 0 =
      some (v, k')) :
    (108/100 ≤ v ∧ v ≤ 115/100) ∨ (90/100 ≤ v ∧ v ≤ 97/100) := by
  rw [gsv_pressure_eq] at h
  have hnlt : ¬ g k < (if (false : Bool) = true then np else (0 : ℚ)) := by
    simpa using not_lt.mpr (hg k).1
  rw [if_neg hnlt] at h
  by_cases hc : g (k + 1) < 1/2
  · rw [if_pos hc] at h
    simp only [Option.some.injEq, Prod.mk.injEq] at h
    obtain ⟨hv, -⟩ := h
    subst hv
    exact Or.inl (pyRound_uniform_mem 2 108 115 (108/100) (115/100) (g (k + 2))
      (by norm_num) (by norm_num) (by norm_num) (hg (k + 2)).1 (hg (k + 2)).2)
  · rw [if_neg hc] at h
    simp only [Option.some.injEq, Prod.mk.injEq] at h
    obtain ⟨hv, -⟩ := h
    subst hv
    exact Or.inr (pyRound_uniform_mem 2 90 97 (90/100) (97/100) (g (k + 2))
      (by norm_num) (by norm_num) (by norm_num) (hg (k + 2)).1 (hg (k + 2)).2)

lemma gsv_vibration_abnormal (g : ℕ → ℚ) (hg : validStream g) (k : ℕ) (np v : ℚ)
    (k' : ℕ)
    (h : SensorDataGenerator.init.generate_sensor_value g k "vibration" false np 0 =
      some (v, k')) :
    (7/100 ≤ v ∧ v ≤ 12/100) ∨ (1/1000 ≤ v ∧ v ≤ 15/1000) := by
  rw [gsv_vibration_eq] at h
  have hnlt : ¬ g k < (if (false : Bool) = true then np else (0 : ℚ)) := by
    simpa using not_lt.mpr (hg k).1
  rw [if_neg hnlt] at h
  by_cases hc : g (k + 1) < 1/2
  · rw [if_pos hc] at h
    simp only [Option.some.injEq, Prod.mk.injEq] at h
    obtain ⟨hv, -⟩ := h
    subst hv
    exact Or.inl (pyRound_uniform_mem 3 70 120 (7/100) (12/100) (g (k + 2))
      (by norm_num) (by norm_num) (by norm_num) (hg (k + 2)).1 (hg (k + 2)).2)
  · rw [if_neg hc] at h
    simp only [Option.some.injEq, Prod.mk.injEq] at h
    obtain ⟨hv, -⟩ := h
    subst hv
    exact Or.inr (pyRound_uniform_mem 3 1 15 (1/1000) (15/1000) (g (k + 2))
      (by norm_num) (by norm_num) (by norm_num) (hg (k + 2)).1 (hg (k + 2)).2)

lemma gsv_temp_shape (g : ℕ → ℚ) (k : ℕ) (isn : Bool) (np ap v : ℚ) (k' : ℕ)
    (h : SensorDataGenerator.init.generate_sensor_value g k "temp" isn np ap =
      some (v, k')) : ∃ z : ℤ, v = (z : ℚ) / 10 ^ 1 := by
  rw [gsv_temp_eq] at h
  split_ifs at h <;>
    · simp only [Option.some.injEq, Prod.mk.injEq] at h
      obtain ⟨hv, -⟩ := h
      subst hv
      exact pyRound_eq_div _ 1

lemma gsv_pressure_shape (g : ℕ → ℚ) (k : ℕ) (isn : Bool) (np ap v : ℚ) (k' : ℕ)
    (h : SensorDataGenerator.init.generate_sensor_value g k "pressure" isn np ap =
      some (v, k')) : ∃ z : ℤ, v = (z : ℚ) / 10 ^ 2 := by
  rw [gsv_pressure_eq] at h
  split_ifs at h <;>
    · simp only [Option.some.injEq, Prod.mk.injEq] at h
      obtain ⟨hv, -⟩ := h
      subst hv
      exact pyRound_eq_div _ 2

lemma gsv_vibration_shape (g : ℕ → ℚ) (k : ℕ) (isn : Bool) (np ap v : ℚ) (k' : ℕ)
    (h : SensorDataGenerator.init.generate_sensor_value g k "vibration" isn np ap =
      some (v, k')) : ∃ z : ℤ, v = (z : ℚ) / 10 ^ 3 := by
  rw [gsv_vibration_eq] at h
  split_ifs at h <;>
    · simp only [Option.some.injEq, Prod.mk.injEq] at h
      obtain ⟨hv, -⟩ := h
      subst hv
      exact pyRound_eq_div _ 3

lemma genField_total (g : ℕ → ℚ) (k : ℕ) (name : String) (isn : Bool)
    (np ap nullp : ℚ)
    (htot : ∀ k0 : ℕ, ∃ v k',
      SensorDataGenerator.init.generate_sensor_value g k0 name isn np ap =
        some (v, k')) :
    ∃ fv k', SensorDataGenerator.init.genField g k name isn np ap nullp =
      some (fv, k') := by
  unfold SensorDataGenerator.genField
  by_cases hc : g k < nullp
  · exact ⟨none, k + 1, by rw [if_pos hc]⟩
  · obtain ⟨v, k', hv⟩ := htot (k + 1)
    exact ⟨some v, k', by rw [if_neg hc, hv]⟩

lemma genField_cases (g : ℕ → ℚ) (k : ℕ) (name : String) (isn : Bool)
    (np ap nullp : ℚ) (fv : Option ℚ) (k' : ℕ)
    (h : SensorDataGenerator.init.genField g k name isn np ap nullp = some (fv, k')) :
    (g k < nullp ∧ fv = none ∧ k' = k + 1) ∨
    (¬ g k < nullp ∧ ∃ v,
      SensorDataGenerator.init.generate_sensor_value g (k + 1) name isn np ap =
        some (v, k') ∧ fv = some v) := by
  unfold SensorDataGenerator.genField at h
  by_cases hc : g k < nullp
  · rw [if_pos hc] at h
    simp only [Option.some.injEq, Prod.mk.injEq] at h
    exact Or.inl ⟨hc, h.1.symm, h.2.symm⟩
  · rw [if_neg hc] at h
    rcases e : SensorDataGenerator.init.generate_sensor_value g (k + 1) name isn np ap
      with _ | ⟨v, kk⟩
    · simp [e] at h
    · simp only [e, Option.some.injEq, Prod.mk.injEq] at h
      exact Or.inr ⟨hc, v, by rw [← h.2], h.1.symm⟩

lemma generate_row_total (g : ℕ → ℚ) (k : ℕ) (i : ℤ) (np ap nullp : ℚ) :
    ∃ r k', SensorDataGenerator.init.generate_row g k i np ap nullp =
      some (r, k') := by
  obtain ⟨t, k1, h1⟩ := genField_total g (k + 1) "temp" (decide (g k < 7/10)) np ap
    nullp (fun k0 => gsv_temp_total g k0 _ np ap)
  obtain ⟨p, k2, h2⟩ := genField_total g k1 "pressure" (decide (g k < 7/10)) np ap
    nullp (fun k0 => gsv_pressure_total g k0 _ np ap)
  obtain ⟨vb, k3, h3⟩ := genField_total g k2 "vibration" (decide (g k < 7/10)) np ap
    nullp (fun k0 => gsv_vibration_total g k0 _ np ap)
  refine ⟨⟨SensorDataGenerator.init.start_time + 60 * i,
    if decide (g k < 7/10) then "normal" else "abnormal", t, p, vb⟩, k3, ?_⟩
  simp only [SensorDataGenerator.generate_row, h1, h2, h3]

lemma generate_row_cases (g : ℕ → ℚ) (k : ℕ) (i : ℤ) (np ap nullp : ℚ) (r : Row)
    (k' : ℕ)
    (h : SensorDataGenerator.init.generate_row g k i np ap nullp = some (r, k')) :
    ∃ t k1 p k2 vb,
      SensorDataGenerator.init.genField g (k + 1) "temp" (decide (g k < 7/10)) np ap
        nullp = some (t, k1) ∧
      SensorDataGenerator.init.genField g k1 "pressure" (decide (g k < 7/10)) np ap
        nullp = some (p, k2) ∧
      SensorDataGenerator.init.genField g k2 "vibration" (decide (g k < 7/10)) np ap
        nullp = some (vb, k') ∧
      r = ⟨SensorDataGenerator.init.start_time + 60 * i,
           if decide (g k < 7/10) then "normal" else "abnormal", t, p, vb⟩ := by
  simp only [SensorDataGenerator.generate_row] at h
  rcases e1 : SensorDataGenerator.init.genField g (k + 1) "temp"
      (decide (g k < 7/10)) np ap nullp with _ | ⟨t, k1⟩
  · simp [e1] at h
  simp only [e1] at h
  rcases e2 : SensorDataGenerator.init.genField g k1 "pressure"
      (decide (g k < 7/10)) np ap nullp with _ | ⟨p, k2⟩
  · simp [e2] at h
  simp only [e2] at h
  rcases e3 : SensorDataGenerator.init.genField g k2 "vibration"
      (decide (g k < 7/10)) np ap nullp with _ | ⟨vb, k3⟩
  · simp [e3] at h
  simp only [e3, Option.some.injEq, Prod.mk.injEq] at h
  obtain ⟨hr, hk⟩ := h
  exact ⟨t, k1, p, k2, vb, rfl, e2, hk ▸ e3, hr.symm⟩

lemma posAfterRow_step (g : ℕ → ℚ) (np ap nullp : ℚ) (k i : ℕ) (r : Row) (k' : ℕ)
    (h : SensorDataGenerator.init.generate_row g (posAfterRow g np ap nullp k i)
      (i : ℤ) np ap nullp = some (r, k')) :
    posAfterRow g np ap nullp k (i + 1) = k' := by
  simp only [posAfterRow, h]

lemma genDataLoop_idxFrom (g : ℕ → ℚ) (np ap nullp : ℚ) (k : ℕ) :
    ∀ (cnt s : ℕ),
      ∃ rs : List Row,
        SensorDataGenerator.init.genDataLoop g (posAfterRow g np ap nullp k s)
            (idxFrom s cnt) np ap nullp =
          some (rs, posAfterRow g np ap nullp k (s + cnt)) ∧
        rs.length = cnt ∧
        ∀ (j : ℕ) (hj : j < rs.length),
          SensorDataGenerator.init.generate_row g
              (posAfterRow g np ap nullp k (s + j)) ((s + j : ℕ) : ℤ) np ap nullp =
            some (rs.get ⟨j, hj⟩, posAfterRow g np ap nullp k (s + j + 1)) := by
  intro cnt
  induction cnt with
  | zero =>
    intro s
    refine ⟨[], rfl, rfl, ?_⟩
    intro j hj
    exact absurd hj (by simp)
  | succ n ih =>
    intro s
    obtain ⟨r, k', hrow⟩ := generate_row_total g (posAfterRow g np ap nullp k s)
      (s : ℤ) np ap nullp
    have hpos : posAfterRow g np ap nullp k (s + 1) = k' :=
      posAfterRow_step g np ap nullp k s r k' hrow
    obtain ⟨rs, hloop, hlen, helem⟩ := ih (s + 1)
    refine ⟨r :: rs, ?_, by simp [hlen], ?_⟩
    · have hidx : idxFrom s (n + 1) = ((s : ℤ)) :: idxFrom (s + 1) n := rfl
      rw [hidx]
      rw [hpos] at hloop
      simp only [SensorDataGenerator.genDataLoop, hrow, hloop]
      have e : s + 1 + n = s + (n + 1) := by omega
      rw [e]
    · intro j hj
      cases j with
      | zero =>
        simp only [Nat.add_zero, List.get]
        rw [hpos]
        exact hrow
      | succ m =>
        have hj' : m < rs.length := by simpa using hj
        have hm := helem m hj'
        have e : s + 1 + m = s + (m + 1) := by omega
        rw [e] at hm
        simpa using hm

lemma generate_dataset_spec (g : ℕ → ℚ) (k : ℕ) (np ap nullp : ℚ) (n : ℤ) :
    ∃ d : List Row,
      (SensorDataGenerator.init.generate_dataset g k n np ap nullp).1 = some d ∧
      d.length = n.toNat ∧
      ∀ (i : ℕ) (hi : i < d.length),
        SensorDataGenerator.init.generate_row g (posAfterRow g np ap nullp k i)
            (i : ℤ) np ap nullp =
          some (d.get ⟨i, hi⟩, posAfterRow g np ap nullp k (i + 1)) := by
  obtain ⟨rs, hloop, hlen, helem⟩ := genDataLoop_idxFrom g np ap nullp k n.toNat 0
  have hloop' : SensorDataGenerator.init.genDataLoop g k (idxFrom 0 n.toNat) np ap
      nullp = some (rs, posAfterRow g np ap nullp k (0 + n.toNat)) := hloop
  refine ⟨rs, ?_, hlen, ?_⟩
  · simp only [SensorDataGenerator.generate_dataset, pyRange, hloop']
    rfl
  · intro i hi
    have hm := helem i hi
    simpa using hm

/-- C1: for every `num_rows ≥ 0` and any probability arguments,
`generate_dataset` succeeds and returns a dataset whose length is exactly
`num_rows`, and the row at position `i` of the sequence is the row
`generate_row` produces for index `i` (at the RNG cursor reached after rows
`0..i-1`): row order matches index order. -/
theorem spec_C1 (g : ℕ → ℚ) (k : ℕ) (np ap nullp : ℚ) (n : ℤ) (hn : 0 ≤ n) :
    ∃ d : List Row,
      (SensorDataGenerator.init.generate_dataset g k n np ap nullp).1 = some d ∧
      (d.length : ℤ) = n ∧
      ∀ (i : ℕ) (hi : i < d.length),
        SensorDataGenerator.init.generate_row g (posAfterRow g np ap nullp k i)
            (i : ℤ) np ap nullp =
          some (d.get ⟨i, hi⟩, posAfterRow g np ap nullp k (i + 1)) := by
  obtain ⟨d, h1, h2, h3⟩ := generate_dataset_spec g k np ap nullp n
  refine ⟨d, h1, ?_, h3⟩
  rw [h2]
  exact Int.toNat_of_nonneg hn

/-- Witness for C1 at `num_rows = 2` with the all-zeros draw stream. -/
theorem spec_C1_witness :
    (0 : ℤ) ≤ 2 ∧
    ∃ d : List Row,
      (SensorDataGenerator.init.generate_dataset g0 0 2 1 0 0).1 = some d ∧
      (d.length : ℤ) = 2 ∧
      ∀ (i : ℕ) (hi : i < d.length),
        SensorDataGenerator.init.generate_row g0 (posAfterRow g0 1 0 0 0 i)
            (i : ℤ) 1 0 0 =
          some (d.get ⟨i, hi⟩, posAfterRow g0 1 0 0 0 (i + 1)) :=
  ⟨by decide, spec_C1 g0 0 1 0 0 2 (by decide)⟩

/-- C7: for any probability arguments (including values outside `[0, 1]`) and
any `num_rows`, `generate_dataset` completes without error: no validation is
performed and the error (`none`) branch is unreachable. -/
theorem spec_C7 (g : ℕ → ℚ) (k : ℕ) (np ap nullp : ℚ) (n : ℤ) :
    ((SensorDataGenerator.init.generate_dataset g k n np ap nullp).1).isSome := by
  obtain ⟨d, h1, -, -⟩ := generate_dataset_spec g k np ap nullp n
  rw [h1]
  rfl

/-- C9: the sensor-parameter table and the start timestamp (the generator
object's attributes) are unchanged by `generate_dataset` and by
`print_statistics`, and `print_statistics` returns the dataset it was given
unmodified. -/
theorem spec_C9 (self : SensorDataGenerator) (g : ℕ → ℚ) (k : ℕ) (n : ℤ)
    (np ap nullp : ℚ) (df : List Row) :
    (self.generate_dataset g k n np ap nullp).2 = self ∧
    (self.print_statistics df np ap nullp).2.1 = self ∧
    (self.print_statistics df np ap nullp).2.2 = df :=
  ⟨rfl, rfl, rfl⟩

/-- C10: for every `num_rows < 0`, `generate_dataset` does not fail and
returns the empty dataset (whose length `0` differs from `num_rows`). -/
theorem spec_C10 (g : ℕ → ℚ) (k : ℕ) (np ap nullp : ℚ) (n : ℤ) (hn : n < 0) :
    (SensorDataGenerator.init.generate_dataset g k n np ap nullp).1 =
      some ([] : List Row) ∧ (([] : List Row).length : ℤ) ≠ n := by
  constructor
  · have h0 : n.toNat = 0 := Int.toNat_of_nonpos hn.le
    simp only [SensorDataGenerator.generate_dataset, pyRange, h0]
    rfl
  · simp only [List.length_nil, Nat.cast_zero]
    omega

/-- Witness for C10 at `num_rows = -1`. -/
theorem spec_C10_witness :
    (-1 : ℤ) < 0 ∧
    ((SensorDataGenerator.init.generate_dataset g0 0 (-1) 1 0 0).1 =
      some ([] : List Row) ∧ (([] : List Row).length : ℤ) ≠ (-1 : ℤ)) :=
  ⟨by decide, spec_C10 g0 0 1 0 0 (-1) (by decide)⟩

/-- C2: in every generated dataset, the row at index `i` has timestamp equal
to the fixed epoch `datetime(2024, 6, 3, 19, 0, 0)` plus exactly `i` minutes
(`60 i` seconds); hence consecutive rows differ by exactly one minute and
timestamps are strictly increasing. -/
theorem spec_C2 (g : ℕ → ℚ) (k : ℕ) (np ap nullp : ℚ) (n : ℤ) (d : List Row)
    (hd : (SensorDataGenerator.init.generate_dataset g k n np ap nullp).1 = some d) :
    (∀ (i : ℕ) (hi : i < d.length),
      (d.get ⟨i, hi⟩).timestamp = datetimeSec 2024 6 3 19 0 0 + 60 * i) ∧
    (∀ (i : ℕ) (hi1 : i < d.length) (hi2 : i + 1 < d.length),
      (d.get ⟨i + 1, hi2⟩).timestamp - (d.get ⟨i, hi1⟩).timestamp = 60) ∧
    (∀ (i j : ℕ) (hi : i < d.length) (hj : j < d.length), i < j →
      (d.get ⟨i, hi⟩).timestamp < (d.get ⟨j, hj⟩).timestamp) := by
  obtain ⟨d', h1, -, h3⟩ := generate_dataset_spec g k np ap nullp n
  rw [hd] at h1
  have hdd : d = d' := by
    simpa using h1
  subst hdd
  have hts : ∀ (i : ℕ) (hi : i < d.length),
      (d.get ⟨i, hi⟩).timestamp = datetimeSec 2024 6 3 19 0 0 + 60 * i := by
    intro i hi
    have hrow := h3 i hi
    obtain ⟨t, k1, p, k2, vb, -, -, -, hr⟩ :=
      generate_row_cases g (posAfterRow g np ap nullp k i) (i : ℤ) np ap nullp
        (d.get ⟨i, hi⟩) (posAfterRow g np ap nullp k (i + 1)) hrow
    rw [hr]
    rfl
  refine ⟨hts, ?_, ?_⟩
  · intro i hi1 hi2
    rw [hts i hi1, hts (i + 1) hi2]
    push_cast
    ring
  · intro i j hi hj hij
    rw [hts i hi, hts j hj]
    have : (i : ℤ) < (j : ℤ) := by exact_mod_cast hij
    linarith

/-- C3: with `normal_prob = 1`, any row labeled `normal` has every non-missing
sensor value inside that sensor's normal range (temp in `[45, 50]`, pressure
in `[1.00, 1.05]`, vibration in `[0.02, 0.04]`), rounding included. -/
theorem spec_C3 (g : ℕ → ℚ) (hg : validStream g) (k : ℕ) (i : ℤ) (ap nullp : ℚ)
    (r : Row) (k' : ℕ)
    (h : SensorDataGenerator.init.generate_row g k i 1 ap nullp = some (r, k'))
    (hl : r.label = "normal") :
    (∀ v, r.temp = some v → 45 ≤ v ∧ v ≤ 50) ∧
    (∀ v, r.pressure = some v → 1 ≤ v ∧ v ≤ 105/100) ∧
    (∀ v, r.vibration = some v → 2/100 ≤ v ∧ v ≤ 4/100) := by
  obtain ⟨t, k1, p, k2, vb, h1, h2, h3, hr⟩ :=
    generate_row_cases g k i 1 ap nullp r k' h
  have hlab : r.label = (if decide (g k < 7/10) then "normal" else "abnormal") := by
    rw [hr]
  have hb : decide (g k < 7/10) = true := by
    rcases Bool.eq_false_or_eq_true (decide (g k < 7/10)) with hb' | hb'
    · exact hb'
    · rw [hlab, hb'] at hl
      exact absurd hl (by decide)
  have ht : r.temp = t := by rw [hr]
  have hp : r.pressure = p := by rw [hr]
  have hvb : r.vibration = vb := by rw [hr]
  rw [hb] at h1 h2 h3
  refine ⟨?_, ?_, ?_⟩
  · intro v hval
    rw [ht] at hval
    rcases genField_cases g (k + 1) "temp" true 1 ap nullp t k1 h1 with
      ⟨-, hnone, -⟩ | ⟨-, w, hw, hsome⟩
    · rw [hnone] at hval
      simp at hval
    · rw [hsome, Option.some.injEq] at hval
      subst hval
      exact gsv_temp_normal g hg (k + 1 + 1) ap _ k1 hw
  · intro v hval
    rw [hp] at hval
    rcases genField_cases g k1 "pressure" true 1 ap nullp p k2 h2 with
      ⟨-, hnone, -⟩ | ⟨-, w, hw, hsome⟩
    · rw [hnone] at hval
      simp at hval
    · rw [hsome, Option.some.injEq] at hval
      subst hval
      exact gsv_pressure_normal g hg (k1 + 1) ap _ k2 hw
  · intro v hval
    rw [hvb] at hval
    rcases genField_cases g k2 "vibration" true 1 ap nullp vb k' h3 with
      ⟨-, hnone, -⟩ | ⟨-, w, hw, hsome⟩
    · rw [hnone] at hval
      simp at hval
    · rw [hsome, Option.some.injEq] at hval
      subst hval
      exact gsv_vibration_normal g hg (k2 + 1) ap _ k' hw

/-- C4: with `abnormal_prob = 0`, any row labeled `abnormal` has every
non-missing sensor value in that sensor's abnormal-high or abnormal-low
range, and never in its normal range, rounding included. -/
theorem spec_C4 (g : ℕ → ℚ) (hg : validStream g) (k : ℕ) (i : ℤ) (np nullp : ℚ)
    (r : Row) (k' : ℕ)
    (h : SensorDataGenerator.init.generate_row g k i np 0 nullp = some (r, k'))
    (hl : r.label = "abnormal") :
    (∀ v, r.temp = some v →
      ((52 ≤ v ∧ v ≤ 60) ∨ (35 ≤ v ∧ v ≤ 43)) ∧ ¬(45 ≤ v ∧ v ≤ 50)) ∧
    (∀ v, r.pressure = some v →
      ((108/100 ≤ v ∧ v ≤ 115/100) ∨ (90/100 ≤ v ∧ v ≤ 97/100)) ∧
        ¬(1 ≤ v ∧ v ≤ 105/100)) ∧
    (∀ v, r.vibration = some v →
      ((7/100 ≤ v ∧ v ≤ 12/100) ∨ (1/1000 ≤ v ∧ v ≤ 15/1000)) ∧
        ¬(2/100 ≤ v ∧ v ≤ 4/100)) := by
  obtain ⟨t, k1, p, k2, vb, h1, h2, h3, hr⟩ :=
    generate_row_cases g k i np 0 nullp r k' h
  have hlab : r.label = (if decide (g k < 7/10) then "normal" else "abnormal") := by
    rw [hr]
  have hb : decide (g k < 7/10) = false := by
    rcases Bool.eq_false_or_eq_true (decide (g k < 7/10)) with hb' | hb'
    · rw [hlab, hb'] at hl
      exact absurd hl (by decide)
    · exact hb'
  have ht : r.temp = t := by rw [hr]
  have hp : r.pressure = p := by rw [hr]
  have hvb : r.vibration = vb := by rw [hr]
  rw [hb] at h1 h2 h3
  refine ⟨?_, ?_, ?_⟩
  · intro v hval
    rw [ht] at hval
    rcases genField_cases g (k + 1) "temp" false np 0 nullp t k1 h1 with
      ⟨-, hnone, -⟩ | ⟨-, w, hw, hsome⟩
    · rw [hnone] at hval
      simp at hval
    · rw [hsome, Option.some.injEq] at hval
      subst hval
      refine ⟨gsv_temp_abnormal g hg (k + 1 + 1) np _ k1 hw, ?_⟩
      rcases gsv_temp_abnormal g hg (k + 1 + 1) np _ k1 hw with ⟨ha, hb2⟩ | ⟨ha, hb2⟩ <;>
        · rintro ⟨hc1, hc2⟩
          linarith
  · intro v hval
    rw [hp] at hval
    rcases genField_cases g k1 "pressure" false np 0 nullp p k2 h2 with
      ⟨-, hnone, -⟩ | ⟨-, w, hw, hsome⟩
    · rw [hnone] at hval
      simp at hval
    · rw [hsome, Option.some.injEq] at hval
      subst hval
      refine ⟨gsv_pressure_abnormal g hg (k1 + 1) np _ k2 hw, ?_⟩
      rcases gsv_pressure_abnormal g hg (k1 + 1) np _ k2 hw with ⟨ha, hb2⟩ | ⟨ha, hb2⟩ <;>
        · rintro ⟨hc1, hc2⟩
          linarith
  · intro v hval
    rw [hvb] at hval
    rcases genField_cases g k2 "vibration" false np 0 nullp vb k' h3 with
      ⟨-, hnone, -⟩ | ⟨-, w, hw, hsome⟩
    · rw [hnone] at hval
      simp at hval
    · rw [hsome, Option.some.injEq] at hval
      subst hval
      refine ⟨gsv_vibration_abnormal g hg (k2 + 1) np _ k' hw, ?_⟩
      rcases gsv_vibration_abnormal g hg (k2 + 1) np _ k' hw with ⟨ha, hb2⟩ | ⟨ha, hb2⟩ <;>
        · rintro ⟨hc1, hc2⟩
          linarith

/-- C5: with `null_prob = 0` no sensor field of a generated row is ever
missing (a draw in `[0, 1)` is never below `0`); with `null_prob = 1` every
sensor field is missing (a draw in `[0, 1)` is always below `1`). -/
theorem spec_C5 (g : ℕ → ℚ) (hg : validStream g) (k : ℕ) (i : ℤ) (np ap : ℚ) :
    (∀ r k', SensorDataGenerator.init.generate_row g k i np ap 0 = some (r, k') →
      r.temp.isSome ∧ r.pressure.isSome ∧ r.vibration.isSome) ∧
    (∀ r k', SensorDataGenerator.init.generate_row g k i np ap 1 = some (r, k') →
      r.temp = none ∧ r.pressure = none ∧ r.vibration = none) := by
  constructor
  · intro r k' h
    obtain ⟨t, k1, p, k2, vb, h1, h2, h3, hr⟩ :=
      generate_row_cases g k i np ap 0 r k' h
    have ht : r.temp = t := by rw [hr]
    have hp : r.pressure = p := by rw [hr]
    have hvb : r.vibration = vb := by rw [hr]
    refine ⟨?_, ?_, ?_⟩
    · rw [ht]
      rcases genField_cases g (k + 1) "temp" (decide (g k < 7/10)) np ap 0 t k1 h1
        with ⟨hlt, -, -⟩ | ⟨-, w, -, hsome⟩
      · exact absurd hlt (not_lt.mpr (hg (k + 1)).1)
      · rw [hsome]
        rfl
    · rw [hp]
      rcases genField_cases g k1 "pressure" (decide (g k < 7/10)) np ap 0 p k2 h2
        with ⟨hlt, -, -⟩ | ⟨-, w, -, hsome⟩
      · exact absurd hlt (not_lt.mpr (hg k1).1)
      · rw [hsome]
        rfl
    · rw [hvb]
      rcases genField_cases g k2 "vibration" (decide (g k < 7/10)) np ap 0 vb k' h3
        with ⟨hlt, -, -⟩ | ⟨-, w, -, hsome⟩
      · exact absurd hlt (not_lt.mpr (hg k2).1)
      · rw [hsome]
        rfl
  · intro r k' h
    obtain ⟨t, k1, p, k2, vb, h1, h2, h3, hr⟩ :=
      generate_row_cases g k i np ap 1 r k' h
    have ht : r.temp = t := by rw [hr]
    have hp : r.pressure = p := by rw [hr]
    have hvb : r.vibration = vb := by rw [hr]
    refine ⟨?_, ?_, ?_⟩
    · rw [ht]
      rcases genField_cases g (k + 1) "temp" (decide (g k < 7/10)) np ap 1 t k1 h1
        with ⟨-, hnone, -⟩ | ⟨hnlt, -, -, -⟩
      · exact hnone
      · exact absurd (hg (k + 1)).2 hnlt
    · rw [hp]
      rcases genField_cases g k1 "pressure" (decide (g k < 7/10)) np ap 1 p k2 h2
        with ⟨-, hnone, -⟩ | ⟨hnlt, -, -, -⟩
      · exact hnone
      · exact absurd (hg k1).2 hnlt
    · rw [hvb]
      rcases genField_cases g k2 "vibration" (decide (g k < 7/10)) np ap 1 vb k' h3
        with ⟨-, hnone, -⟩ | ⟨hnlt, -, -, -⟩
      · exact hnone
      · exact absurd (hg k2).2 hnlt

/-- C6: every non-missing generated sensor value is a multiple of the sensor's
decimal step: temperature values are integers divided by `10^1`, pressure by
`10^2`, vibration by `10^3` (at most 1, 2, 3 decimal digits respectively). -/
theorem spec_C6 (g : ℕ → ℚ) (k : ℕ) (i : ℤ) (np ap nullp : ℚ) (r : Row) (k' : ℕ)
    (h : SensorDataGenerator.init.generate_row g k i np ap nullp = some (r, k')) :
    (∀ v, r.temp = some v → ∃ z : ℤ, v = (z : ℚ) / 10 ^ 1) ∧
    (∀ v, r.pressure = some v → ∃ z : ℤ, v = (z : ℚ) / 10 ^ 2) ∧
    (∀ v, r.vibration = some v → ∃ z : ℤ, v = (z : ℚ) / 10 ^ 3) := by
  obtain ⟨t, k1, p, k2, vb, h1, h2, h3, hr⟩ :=
    generate_row_cases g k i np ap nullp r k' h
  have ht : r.temp = t := by rw [hr]
  have hp : r.pressure = p := by rw [hr]
  have hvb : r.vibration = vb := by rw [hr]
  refine ⟨?_, ?_, ?_⟩
  · intro v hval
    rw [ht] at hval
    rcases genField_cases g (k + 1) "temp" (decide (g k < 7/10)) np ap nullp t k1 h1
      with ⟨-, hnone, -⟩ | ⟨-, w, hw, hsome⟩
    · rw [hnone] at hval
      simp at hval
    · rw [hsome, Option.some.injEq] at hval
      subst hval
      exact gsv_temp_shape g (k + 1 + 1) _ np ap _ k1 hw
  · intro v hval
    rw [hp] at hval
    rcases genField_cases g k1 "pressure" (decide (g k < 7/10)) np ap nullp p k2 h2
      with ⟨-, hnone, -⟩ | ⟨-, w, hw, hsome⟩
    · rw [hnone] at hval
      simp at hval
    · rw [hsome, Option.some.injEq] at hval
      subst hval
      exact gsv_pressure_shape g (k1 + 1) _ np ap _ k2 hw
  · intro v hval
    rw [hvb] at hval
    rcases genField_cases g k2 "vibration" (decide (g k < 7/10)) np ap nullp vb k' h3
      with ⟨-, hnone, -⟩ | ⟨-, w, hw, hsome⟩
    · rw [hnone] at hval
      simp at hval
    · rw [hsome, Option.some.injEq] at hval
      subst hval
      exact gsv_vibration_shape g (k2 + 1) _ np ap _ k' hw

/-- C8: for every generated dataset the serialized file starts with the header
line `timestamp,label,temp,pressure,vibration`, has exactly one data line per
row, and a missing sensor value serializes as an empty field. -/
theorem spec_C8 (g : ℕ → ℚ) (k : ℕ) (np ap nullp : ℚ) (n : ℤ) (hn : 0 ≤ n)
    (d : List Row)
    (hd : (SensorDataGenerator.init.generate_dataset g k n np ap nullp).1 = some d) :
    (to_csv d).head? = some "timestamp,label,temp,pressure,vibration" ∧
    (to_csv d).length = d.length + 1 ∧
    (to_csv d).tail = d.map rowToCsvLine ∧
    ∀ r ∈ d,
      (r.temp = none → (rowFields r).getD 2 defaultCell = "") ∧
      (r.pressure = none → (rowFields r).getD 3 defaultCell = "") ∧
      (r.vibration = none → (rowFields r).getD 4 defaultCell = "") := by
  refine ⟨rfl, by simp [to_csv], rfl, ?_⟩
  intro r hr
  refine ⟨?_, ?_, ?_⟩ <;> intro hnone
  · show cellStr r.temp = ""
    rw [hnone]
    rfl
  · show cellStr r.pressure = ""
    rw [hnone]
    rfl
  · show cellStr r.vibration = ""
    rw [hnone]
    rfl

lemma sp_ne_temp : (("pressure" : String) = "temp") = False := eq_false (by decide)

lemma sv_ne_temp : (("vibration" : String) = "temp") = False := eq_false (by decide)

lemma sv_ne_press : (("vibration" : String) = "pressure") = False :=
  eq_false (by decide)

lemma g0_valid : validStream g0 := fun _ => ⟨le_refl 0, by norm_num [g0]⟩

lemma g1_valid : validStream g1 := fun _ => ⟨by norm_num [g1], by norm_num [g1]⟩

lemma run_row_g0 : SensorDataGenerator.init.generate_row g0 0 0 1 (3/10) 0 =
    some (⟨1717441200, "normal", some 45, some 1, some ((1:ℚ)/50)⟩, 10) := by
  norm_num [SensorDataGenerator.generate_row, SensorDataGenerator.genField,
    SensorDataGenerator.generate_sensor_value, SensorDataGenerator.init, g0,
    pyRound, rndHalfEven, randomUniform, datetimeSec, daysFromCivil,
    sp_ne_temp, sv_ne_temp, sv_ne_press]

lemma run_row_g1 : SensorDataGenerator.init.generate_row g1 0 0 1 0 0 =
    some (⟨1717441200, "abnormal", some ((203:ℚ)/5), some ((19:ℚ)/20),
      some ((11:ℚ)/1000)⟩, 13) := by
  norm_num [SensorDataGenerator.generate_row, SensorDataGenerator.genField,
    SensorDataGenerator.generate_sensor_value, SensorDataGenerator.init, g1,
    pyRound, rndHalfEven, randomUniform, datetimeSec, daysFromCivil,
    sp_ne_temp, sv_ne_temp, sv_ne_press]

lemma run_dataset_g0 : (SensorDataGenerator.init.generate_dataset g0 0 1 1 0 0).1 =
    some [⟨1717441200, "normal", some 45, some 1, some ((1:ℚ)/50)⟩] := by
  norm_num [SensorDataGenerator.generate_dataset, SensorDataGenerator.genDataLoop,
    pyRange, idxFrom, show Int.toNat 1 = 1 from rfl,
    SensorDataGenerator.generate_row, SensorDataGenerator.genField,
    SensorDataGenerator.generate_sensor_value, SensorDataGenerator.init, g0,
    pyRound, rndHalfEven, randomUniform, datetimeSec, daysFromCivil,
    sp_ne_temp, sv_ne_temp, sv_ne_press]

/-- Witness for C2 at a one-row dataset generated from the all-zeros stream. -/
theorem spec_C2_witness :
    (∀ (i : ℕ)
      (hi : i < [(⟨1717441200, "normal", some 45, some 1, some ((1:ℚ)/50)⟩ : Row)].length),
      (([(⟨1717441200, "normal", some 45, some 1, some ((1:ℚ)/50)⟩ : Row)].get
        ⟨i, hi⟩).timestamp) = datetimeSec 2024 6 3 19 0 0 + 60 * i) ∧
    (∀ (i : ℕ)
      (hi1 : i < [(⟨1717441200, "normal", some 45, some 1, some ((1:ℚ)/50)⟩ : Row)].length)
      (hi2 : i + 1 < [(⟨1717441200, "normal", some 45, some 1, some ((1:ℚ)/50)⟩ : Row)].length),
      ([(⟨1717441200, "normal", some 45, some 1, some ((1:ℚ)/50)⟩ : Row)].get
        ⟨i + 1, hi2⟩).timestamp -
        ([(⟨1717441200, "normal", some 45, some 1, some ((1:ℚ)/50)⟩ : Row)].get
          ⟨i, hi1⟩).timestamp = 60) ∧
    (∀ (i j : ℕ)
      (hi : i < [(⟨1717441200, "normal", some 45, some 1, some ((1:ℚ)/50)⟩ : Row)].length)
      (hj : j < [(⟨1717441200, "normal", some 45, some 1, some ((1:ℚ)/50)⟩ : Row)].length),
      i < j →
      ([(⟨1717441200, "normal", some 45, some 1, some ((1:ℚ)/50)⟩ : Row)].get
        ⟨i, hi⟩).timestamp <
        ([(⟨1717441200, "normal", some 45, some 1, some ((1:ℚ)/50)⟩ : Row)].get
          ⟨j, hj⟩).timestamp) :=
  spec_C2 g0 0 1 0 0 1 _ run_dataset_g0

/-- Witness for C3: a concrete `normal`-labeled row generated with
`normal_prob = 1`. -/
theorem spec_C3_witness :
    (∀ v, (⟨1717441200, "normal", some 45, some 1, some ((1:ℚ)/50)⟩ : Row).temp =
      some v → 45 ≤ v ∧ v ≤ 50) ∧
    (∀ v, (⟨1717441200, "normal", some 45, some 1, some ((1:ℚ)/50)⟩ : Row).pressure =
      some v → 1 ≤ v ∧ v ≤ 105/100) ∧
    (∀ v, (⟨1717441200, "normal", some 45, some 1, some ((1:ℚ)/50)⟩ : Row).vibration =
      some v → 2/100 ≤ v ∧ v ≤ 4/100) :=
  spec_C3 g0 g0_valid 0 0 (3/10) 0 _ 10 run_row_g0 rfl

/-- Witness for C4: a concrete `abnormal`-labeled row generated with
`abnormal_prob = 0`. -/
theorem spec_C4_witness :
    (∀ v, (⟨1717441200, "abnormal", some ((203:ℚ)/5), some ((19:ℚ)/20),
        some ((11:ℚ)/1000)⟩ : Row).temp = some v →
      ((52 ≤ v ∧ v ≤ 60) ∨ (35 ≤ v ∧ v ≤ 43)) ∧ ¬(45 ≤ v ∧ v ≤ 50)) ∧
    (∀ v, (⟨1717441200, "abnormal", some ((203:ℚ)/5), some ((19:ℚ)/20),
        some ((11:ℚ)/1000)⟩ : Row).pressure = some v →
      ((108/100 ≤ v ∧ v ≤ 115/100) ∨ (90/100 ≤ v ∧ v ≤ 97/100)) ∧
        ¬(1 ≤ v ∧ v ≤ 105/100)) ∧
    (∀ v, (⟨1717441200, "abnormal", some ((203:ℚ)/5), some ((19:ℚ)/20),
        some ((11:ℚ)/1000)⟩ : Row).vibration = some v →
      ((7/100 ≤ v ∧ v ≤ 12/100) ∨ (1/1000 ≤ v ∧ v ≤ 15/1000)) ∧
        ¬(2/100 ≤ v ∧ v ≤ 4/100)) :=
  spec_C4 g1 g1_valid 0 0 1 0 _ 13 run_row_g1 rfl

/-- Witness for C5: instantiation at the all-zeros stream. -/
theorem spec_C5_witness :
    (∀ r k', SensorDataGenerator.init.generate_row g0 0 0 1 (3/10) 0 =
      some (r, k') → r.temp.isSome ∧ r.pressure.isSome ∧ r.vibration.isSome) ∧
    (∀ r k', SensorDataGenerator.init.generate_row g0 0 0 1 (3/10) 1 =
      some (r, k') → r.temp = none ∧ r.pressure = none ∧ r.vibration = none) :=
  spec_C5 g0 g0_valid 0 0 1 (3/10)

/-- Witness for C6: rounding shape of a concrete generated row. -/
theorem spec_C6_witness :
    (∀ v, (⟨1717441200, "normal", some 45, some 1, some ((1:ℚ)/50)⟩ : Row).temp =
      some v → ∃ z : ℤ, v = (z : ℚ) / 10 ^ 1) ∧
    (∀ v, (⟨1717441200, "normal", some 45, some 1, some ((1:ℚ)/50)⟩ : Row).pressure =
      some v → ∃ z : ℤ, v = (z : ℚ) / 10 ^ 2) ∧
    (∀ v, (⟨1717441200, "normal", some 45, some 1, some ((1:ℚ)/50)⟩ : Row).vibration =
      some v → ∃ z : ℤ, v = (z : ℚ) / 10 ^ 3) :=
  spec_C6 g0 0 0 1 (3/10) 0 _ 10 run_row_g0

/-- Witness for C8: the serialized one-row dataset. -/
theorem spec_C8_witness :
    (to_csv [(⟨1717441200, "normal", some 45, some 1, some ((1:ℚ)/50)⟩ : Row)]).head? =
      some "timestamp,label,temp,pressure,vibration" ∧
    (to_csv [(⟨1717441200, "normal", some 45, some 1, some ((1:ℚ)/50)⟩ : Row)]).length =
      [(⟨1717441200, "normal", some 45, some 1, some ((1:ℚ)/50)⟩ : Row)].length + 1 ∧
    (to_csv [(⟨1717441200, "normal", some 45, some 1, some ((1:ℚ)/50)⟩ : Row)]).tail =
      [(⟨1717441200, "normal", some 45, some 1, some ((1:ℚ)/50)⟩ : Row)].map
        rowToCsvLine ∧
    ∀ r ∈ [(⟨1717441200, "normal", some 45, some 1, some ((1:ℚ)/50)⟩ : Row)],
      (r.temp = none → (rowFields r).getD 2 defaultCell = "") ∧
      (r.pressure = none → (rowFields r).getD 3 defaultCell = "") ∧
      (r.vibration = none → (rowFields r).getD 4 defaultCell = "") :=
  spec_C8 g0 0 1 0 0 1 (by decide) _ run_dataset_g0
